import Mathlib

/-!
Verification of src/aurora/interface/cycling/technique_widget.py.

The file technique_widget.py builds ipywidgets rows from cycling-parameter
objects: a checkbox, a value control chosen by inspecting the declared
type annotation of the parameter value field, and a units label.  We embed
the Python values, the relevant fragment of the Python type system
(the arguments of the Optional[...] annotation of the value field), the
widget states and the construction and read-back functions, and prove the
claims about them.  Fallible Python code (raise) is embedded with Except.
-/

/-- Python runtime values that can appear as parameter values: None, bools,
ints, floats (modelled exactly as rationals) and strings. -/
inductive PyValue
  | none
  | bool (b : Bool)
  | int (n : Int)
  | float (q : ℚ)
  | str (s : String)
deriving DecidableEq, Repr

/-- Python types that can appear among the arguments of the Optional
annotation of the value field of a CyclingParameter: Literal[...] with its
arguments, bool, float, pydantic NonNegativeFloat, int, pydantic
NonNegativeInt, str, NoneType, and any other plain class (which is not a
subclass of bool, int, float or str). -/
inductive PyType
  | literal (args : List PyValue)
  | bool
  | float
  | nonNegativeFloat
  | int
  | nonNegativeInt
  | str
  | noneType
  | otherClass (name : String)
deriving DecidableEq, Repr

/-- Class arguments of the issubclass checks performed by the code. -/
inductive PyClass
  | bool
  | float
  | int
  | str
deriving DecidableEq, Repr

/-- Python issubclass on the embedded types: bool is a subclass of int,
the pydantic constrained types are subclasses of float resp. int, every
type is a subclass of itself, and nothing else holds. -/
def issubclass : PyType → PyClass → Bool
  | PyType.bool, PyClass.bool => true
  | PyType.bool, PyClass.int => true
  | PyType.int, PyClass.int => true
  | PyType.nonNegativeInt, PyClass.int => true
  | PyType.float, PyClass.float => true
  | PyType.nonNegativeFloat, PyClass.float => true
  | PyType.str, PyClass.str => true
  | _, _ => false

/-- Python str() applied to an embedded value. -/
def pyStr : PyValue → String
  | PyValue.none => "None"
  | PyValue.bool true => "True"
  | PyValue.bool false => "False"
  | PyValue.int n => toString n
  | PyValue.float q => toString q
  | PyValue.str s => s

/-- Modelled from the spec: the CyclingParameter pydantic model of
aurora.schemas.cycling is not part of the sources; the spec describes a
parameter schema as "a declarative description of a technique's
configurable values (type, default, bounds, label)".  The fields read by
technique_widget.py are value, default_value, required, label,
description, units, and the class annotation of the value field.  The
field value_type_args embeds get_args applied to that annotation; the
annotation is Optional[...], so its arguments are the actual type or types
together with NoneType. -/
structure CyclingParameter where
  label : String
  description : String
  units : String
  required : Bool
  value : PyValue
  default_value : PyValue
  value_type_args : List PyType
deriving DecidableEq, Repr

/-- An argument passed to build_parameter_widget: either a CyclingParameter
instance or an object of some other type (carrying its type name). -/
inductive PyObject
  | cyclingParameter (p : CyclingParameter)
  | notCycling (typeName : String)
deriving DecidableEq, Repr

/-- Python exceptions raised by the embedded code. -/
inductive PyError
  | typeError (msg : String)
  | notImplementedError
  | indexError
  | valueError (msg : String)
deriving DecidableEq, Repr

/-- An option of an ipywidgets Dropdown: either a plain value or a
(label, value) pair. -/
inductive DropdownOption
  | plain (v : PyValue)
  | labeled (label : String) (v : PyValue)
deriving DecidableEq, Repr

/-- The control-specific part of the value widget built for a parameter:
which ipywidgets class it is and the arguments specific to that class. -/
inductive WidgetControl
  | dropdown (placeholder : String) (options : List DropdownOption)
  | boundedFloatText (vmin vmax : PyValue)
  | boundedIntText (vmin vmax : PyValue)
  | text (placeholder : String)
deriving DecidableEq, Repr

/-- The state of the value widget of a parameter row. -/
structure ValueWidget where
  control : WidgetControl
  description : String
  value : PyValue
  disabled : Bool
deriving DecidableEq, Repr

/-- The state of the enable checkbox of a parameter row. -/
structure Checkbox where
  value : Bool
  disabled : Bool
  description : String
deriving DecidableEq, Repr

/-- The HBox row returned by build_parameter_widget: the checkbox, the
value widget and the HTMLMath units label. -/
structure ParamRow where
  w_check : Checkbox
  w_param : ValueWidget
  w_units : String
deriving DecidableEq, Repr

/-- Lines 26-32: the enable checkbox, checked when the parameter is
required or already has a non-None value, disabled when required. -/
def buildCheckbox (p : CyclingParameter) : Checkbox :=
  { value := p.required || !(p.value == PyValue.none)
    disabled := p.required
    description := "" }

/-- Line 35: the value of the parameter, or its default value when None. -/
def initial_param_value (p : CyclingParameter) : PyValue :=
  if !(p.value == PyValue.none) then p.value else p.default_value

/-- Line 40: discard NoneType from the arguments of the annotation. -/
def discardNone (types : List PyType) : List PyType :=
  types.filter (fun t => !(t == PyType.noneType))

/-- Lines 42-53: pick the effective value type and value.  A multi-type
union picks str and converts the value to its string representation when
str is among the types, and raises NotImplementedError otherwise; a single
type is picked as is; indexing an empty tuple raises IndexError. -/
def resolveType (types : List PyType) (param_value : PyValue) :
    Except PyError (PyType × PyValue) :=
  if 1 < types.length then
    if types.contains PyType.str then
      Except.ok (PyType.str, PyValue.str (pyStr param_value))
    else
      Except.error PyError.notImplementedError
  else
    match types with
    | [] => Except.error PyError.indexError
    | t :: _ => Except.ok (t, param_value)

/-- Constant 1e99 used as a widget bound. -/
def e99 : ℚ := 10 ^ 99

/-- Lines 55-95: build the value widget from the effective type: Literal
gives a Dropdown over its arguments, bool a Dropdown over False/True,
float subclasses a BoundedFloatText, int subclasses a BoundedIntText, str
a Text field, anything else raises NotImplementedError.  The ipywidgets
default disabled state is false. -/
def dispatchWidget (p : CyclingParameter) (value_type : PyType)
    (param_value : PyValue) : Except PyError ValueWidget :=
  match value_type with
  | PyType.literal args =>
      Except.ok
        { control := WidgetControl.dropdown p.description
            (args.map DropdownOption.plain)
          description := p.label
          value := param_value
          disabled := false }
  | vt =>
      if issubclass vt PyClass.bool then
        Except.ok
          { control := WidgetControl.dropdown p.description
              [DropdownOption.labeled "False" (PyValue.bool false),
               DropdownOption.labeled "True" (PyValue.bool true)]
            description := p.label
            value := param_value
            disabled := false }
      else if issubclass vt PyClass.float then
        let bounds :=
          if vt == PyType.nonNegativeFloat then
            (PyValue.float 0, PyValue.float e99)
          else
            (PyValue.float (-e99), PyValue.float e99)
        Except.ok
          { control := WidgetControl.boundedFloatText bounds.1 bounds.2
            description := p.label
            value := param_value
            disabled := false }
      else if issubclass vt PyClass.int then
        let bounds :=
          if vt == PyType.nonNegativeInt then
            (PyValue.int 0, PyValue.float e99)
          else
            (PyValue.float (-e99), PyValue.float e99)
        Except.ok
          { control := WidgetControl.boundedIntText bounds.1 bounds.2
            description := p.label
            value := param_value
            disabled := false }
      else if issubclass vt PyClass.str then
        Except.ok
          { control := WidgetControl.text ""
            description := p.label
            value := param_value
            disabled := false }
      else
        Except.error PyError.notImplementedError

/-- Lines 102-104: the HTMLMath units label. -/
def buildUnits (p : CyclingParameter) : String :=
  if p.description == "" then ""
  else p.units ++ "&nbsp&nbsp&nbsp (<i>" ++ p.description ++ "</i>)"

/-- Lines 97-101: the enable_w_param handler sets the disabled flag of the
value widget to the negation of the checkbox value. -/
def enable_w_param (row : ParamRow) : ParamRow :=
  { row with w_param := { row.w_param with disabled := !row.w_check.value } }

/-- Lines 97-106: assemble the HBox row: checkbox, value widget after the
initial enable_w_param() call, units label. -/
def assembleRow (p : CyclingParameter) (w_param : ValueWidget) : ParamRow :=
  enable_w_param { w_check := buildCheckbox p, w_param := w_param,
                   w_units := buildUnits p }

/-- Lines 19-106: build_parameter_widget.  A non-CyclingParameter argument
raises TypeError; otherwise the effective type and value are resolved and
the row is assembled. -/
def build_parameter_widget (param_obj : PyObject) : Except PyError ParamRow :=
  match param_obj with
  | PyObject.notCycling typeName =>
      Except.error (PyError.typeError
        ("param_obj should be a CyclingParameter instance, not " ++ typeName))
  | PyObject.cyclingParameter p =>
      match resolveType (discardNone p.value_type_args)
          (initial_param_value p) with
      | Except.error e => Except.error e
      | Except.ok (value_type, param_value) =>
          match dispatchWidget p value_type param_value with
          | Except.error e => Except.error e
          | Except.ok w_param => Except.ok (assembleRow p w_param)

/-- A change of the checkbox value: the value is set and the registered
observer enable_w_param runs. -/
def setCheckboxValue (row : ParamRow) (b : Bool) : ParamRow :=
  enable_w_param { row with w_check := { row.w_check with value := b } }

/-- A user interaction with the checkbox: a disabled checkbox cannot be
changed from the UI; otherwise the value is set and the observer runs. -/
def userToggleCheckbox (row : ParamRow) (b : Bool) : ParamRow :=
  if row.w_check.disabled then row else setCheckboxValue row b

/-- Modelled from the spec: a technique instance of one of the
ElectroChemPayloads classes of aurora.schemas.cycling, which is not part
of the sources.  The fields read by TechniqueParametersWidget are
short_name, description, name, the device annotation arguments, and the
parameters dict (embedded as its ordered list of key-value pairs). -/
structure Technique where
  short_name : String
  description : String
  name : String
  device_options : List String
  parameters : List (String × PyObject)
deriving DecidableEq, Repr

/-- An argument passed to TechniqueParametersWidget: a valid technique
(an instance of one of the ElectroChemPayloads classes) or any other
object. -/
inductive TechniqueObject
  | valid (t : Technique)
  | invalid (typeName : String)
deriving DecidableEq, Repr

/-- The widget state of a TechniqueParametersWidget. -/
structure TechniqueParametersWidget where
  tech_short_name : String
  tech_description : String
  w_name_value : String
  w_device_options : List String
  w_device_value : String
  tech_parameters_names : List String
  w_tech_parameters : List ParamRow
deriving DecidableEq, Repr

/-- Lines 130-135: the loop over the parameters dict building one row per
entry; an exception from build_parameter_widget propagates. -/
def buildParameterRows : List (String × PyObject) →
    Except PyError (List ParamRow)
  | [] => Except.ok []
  | (_, pobj) :: rest =>
      match build_parameter_widget pobj with
      | Except.error e => Except.error e
      | Except.ok row =>
          match buildParameterRows rest with
          | Except.error e => Except.error e
          | Except.ok rows => Except.ok (row :: rows)

/-- Lines 111-143: TechniqueParametersWidget.__init__.  An argument that
is not an instance of one of the ElectroChemPayloads classes raises
ValueError before any state is constructed; otherwise the header widgets
and one parameter row per schema entry are built. -/
def TechniqueParametersWidget.init (technique : TechniqueObject) :
    Except PyError TechniqueParametersWidget :=
  match technique with
  | TechniqueObject.invalid _ => Except.error (PyError.valueError "Invalid technique")
  | TechniqueObject.valid t =>
      match t.device_options with
      | [] => Except.error PyError.indexError
      | d :: _ =>
          match buildParameterRows t.parameters with
          | Except.error e => Except.error e
          | Except.ok rows =>
              Except.ok
                { tech_short_name := t.short_name
                  tech_description := t.description
                  w_name_value := t.name
                  w_device_options := t.device_options
                  w_device_value := d
                  tech_parameters_names := t.parameters.map Prod.fst
                  w_tech_parameters := rows }

/-- Lines 145-147: the tech_name property. -/
def TechniqueParametersWidget.tech_name (w : TechniqueParametersWidget) :
    String :=
  w.w_name_value

/-- Lines 149-153: the tech_parameters_values property: the value of each
row's value widget, or None when the row's checkbox is unchecked. -/
def TechniqueParametersWidget.tech_parameters_values
    (w : TechniqueParametersWidget) : List PyValue :=
  w.w_tech_parameters.map
    (fun r => if r.w_check.value then r.w_param.value else PyValue.none)

/-- Python dict item assignment on an association list: an existing key
keeps its position and gets the new value, a new key is appended. -/
def dictSetItem (d : List (String × PyValue)) (k : String) (v : PyValue) :
    List (String × PyValue) :=
  if d.any (fun q => q.1 == k) then
    d.map (fun q => if q.1 == k then (k, v) else q)
  else
    d ++ [(k, v)]

/-- A Python dict built from a sequence of key-value pairs, as the dict
comprehension does, embedded as its insertion-ordered association list. -/
def pyDictOfPairs (l : List (String × PyValue)) : List (String × PyValue) :=
  l.foldl (fun d q => dictSetItem d q.1 q.2) []

/-- Lines 155-162: the selected_tech_parameters property: the dict of
name-value pairs whose value is not None. -/
def TechniqueParametersWidget.selected_tech_parameters
    (w : TechniqueParametersWidget) : List (String × PyValue) :=
  pyDictOfPairs
    ((w.tech_parameters_names.zip w.tech_parameters_values).filter
      (fun q => !(q.2 == PyValue.none)))

/-- A Bool flag for a single effective type the dispatch supports: Literal,
bool, float subclasses, int subclasses and str. -/
def supportedSingle : PyType → Bool
  | PyType.literal _ => true
  | PyType.bool => true
  | PyType.float => true
  | PyType.nonNegativeFloat => true
  | PyType.int => true
  | PyType.nonNegativeInt => true
  | PyType.str => true
  | _ => false

/-- A Bool flag for the annotations (after discarding NoneType) on which
the dispatch raises NotImplementedError: a multi-type union without str,
or a single unsupported type. -/
def unsupportedAnn (types : List PyType) : Bool :=
  (decide (1 < types.length) && !(types.contains PyType.str)) ||
  (match types with
   | [t] => !(supportedSingle t)
   | _ => false)

/-- A placeholder row used only to destructure Except results in concrete
examples. -/
def defaultRow : ParamRow :=
  { w_check := { value := false, disabled := false, description := "" }
    w_param := { control := WidgetControl.text "", description := ""
                 value := PyValue.none, disabled := false }
    w_units := "" }

/-- Extract the row of a successful build, defaulting on error. -/
def getRow (e : Except PyError ParamRow) : ParamRow :=
  match e with
  | Except.ok r => r
  | Except.error _ => defaultRow

/-- A placeholder widget state used only to destructure Except results. -/
def defaultTPW : TechniqueParametersWidget :=
  { tech_short_name := "", tech_description := "", w_name_value := ""
    w_device_options := [], w_device_value := ""
    tech_parameters_names := [], w_tech_parameters := [] }

/-- Extract the widget of a successful init, defaulting on error. -/
def getTPW (e : Except PyError TechniqueParametersWidget) :
    TechniqueParametersWidget :=
  match e with
  | Except.ok w => w
  | Except.error _ => defaultTPW

/-- Example: a required bool parameter. -/
def exBoolParam : CyclingParameter :=
  { label := "Enabled", description := "toggle", units := ""
    required := true, value := PyValue.none
    default_value := PyValue.bool false
    value_type_args := [PyType.bool, PyType.noneType] }

/-- Example: an optional NonNegativeFloat parameter with a set value. -/
def exFloatParam : CyclingParameter :=
  { label := "Rate", description := "rate", units := "A"
    required := false, value := PyValue.float 2
    default_value := PyValue.float 1
    value_type_args := [PyType.nonNegativeFloat, PyType.noneType] }

/-- Example: an optional NonNegativeInt parameter without a set value. -/
def exIntParam : CyclingParameter :=
  { label := "Cycles", description := "count", units := ""
    required := false, value := PyValue.none
    default_value := PyValue.int 3
    value_type_args := [PyType.nonNegativeInt, PyType.noneType] }

/-- Example: a parameter whose annotation is a multi-type union containing
str, with an int value. -/
def exUnionParam : CyclingParameter :=
  { label := "Mixed", description := "d", units := "u"
    required := false, value := PyValue.int 5
    default_value := PyValue.none
    value_type_args := [PyType.int, PyType.str, PyType.noneType] }

/-- Example rows built from the example parameters. -/
def exBoolRow : ParamRow :=
  getRow (build_parameter_widget (PyObject.cyclingParameter exBoolParam))

/-- Example row for the NonNegativeFloat parameter. -/
def exFloatRow : ParamRow :=
  getRow (build_parameter_widget (PyObject.cyclingParameter exFloatParam))

/-- Example row for the NonNegativeInt parameter. -/
def exIntRow : ParamRow :=
  getRow (build_parameter_widget (PyObject.cyclingParameter exIntParam))

/-- Example row for the union parameter. -/
def exUnionRow : ParamRow :=
  getRow (build_parameter_widget (PyObject.cyclingParameter exUnionParam))

/-- Example: a valid technique with two parameters. -/
def exTechnique : Technique :=
  { short_name := "DC", description := "discharge", name := "step1"
    device_options := ["worker1", "worker2"]
    parameters := [("enabled", PyObject.cyclingParameter exBoolParam),
                   ("rate", PyObject.cyclingParameter exFloatParam)] }

/-- Example widget state built from the example technique. -/
def exTPW : TechniqueParametersWidget :=
  getTPW (TechniqueParametersWidget.init (TechniqueObject.valid exTechnique))

/-!
Helper lemmas about the assembled row and the dispatch function.
-/

lemma assembleRow_w_param_control (p : CyclingParameter) (w : ValueWidget) :
    (assembleRow p w).w_param.control = w.control := rfl

lemma assembleRow_w_param_value (p : CyclingParameter) (w : ValueWidget) :
    (assembleRow p w).w_param.value = w.value := rfl

lemma assembleRow_w_param_description (p : CyclingParameter) (w : ValueWidget) :
    (assembleRow p w).w_param.description = w.description := rfl

lemma assembleRow_w_check (p : CyclingParameter) (w : ValueWidget) :
    (assembleRow p w).w_check = buildCheckbox p := rfl

lemma assembleRow_w_param_disabled (p : CyclingParameter) (w : ValueWidget) :
    (assembleRow p w).w_param.disabled = !(buildCheckbox p).value := rfl

lemma dispatch_literal (p : CyclingParameter) (args : List PyValue)
    (pv : PyValue) :
    dispatchWidget p (PyType.literal args) pv =
      Except.ok
        { control := WidgetControl.dropdown p.description
            (args.map DropdownOption.plain)
          description := p.label, value := pv, disabled := false } := rfl

lemma dispatch_bool (p : CyclingParameter) (pv : PyValue) :
    dispatchWidget p PyType.bool pv =
      Except.ok
        { control := WidgetControl.dropdown p.description
            [DropdownOption.labeled "False" (PyValue.bool false),
             DropdownOption.labeled "True" (PyValue.bool true)]
          description := p.label, value := pv, disabled := false } := rfl

lemma dispatch_float (p : CyclingParameter) (pv : PyValue) :
    dispatchWidget p PyType.float pv =
      Except.ok
        { control := WidgetControl.boundedFloatText
            (PyValue.float (-e99)) (PyValue.float e99)
          description := p.label, value := pv, disabled := false } := rfl

lemma dispatch_nnFloat (p : CyclingParameter) (pv : PyValue) :
    dispatchWidget p PyType.nonNegativeFloat pv =
      Except.ok
        { control := WidgetControl.boundedFloatText
            (PyValue.float 0) (PyValue.float e99)
          description := p.label, value := pv, disabled := false } := rfl

lemma dispatch_int (p : CyclingParameter) (pv : PyValue) :
    dispatchWidget p PyType.int pv =
      Except.ok
        { control := WidgetControl.boundedIntText
            (PyValue.float (-e99)) (PyValue.float e99)
          description := p.label, value := pv, disabled := false } := rfl

lemma dispatch_nnInt (p : CyclingParameter) (pv : PyValue) :
    dispatchWidget p PyType.nonNegativeInt pv =
      Except.ok
        { control := WidgetControl.boundedIntText
            (PyValue.int 0) (PyValue.float e99)
          description := p.label, value := pv, disabled := false } := rfl

lemma dispatch_str (p : CyclingParameter) (pv : PyValue) :
    dispatchWidget p PyType.str pv =
      Except.ok
        { control := WidgetControl.text ""
          description := p.label, value := pv, disabled := false } := rfl

lemma dispatch_noneType (p : CyclingParameter) (pv : PyValue) :
    dispatchWidget p PyType.noneType pv =
      Except.error PyError.notImplementedError := rfl

lemma dispatch_otherClass (p : CyclingParameter) (s : String) (pv : PyValue) :
    dispatchWidget p (PyType.otherClass s) pv =
      Except.error PyError.notImplementedError := rfl

lemma build_ok_elim {p : CyclingParameter} {row : ParamRow}
    (hbuild : build_parameter_widget (PyObject.cyclingParameter p) =
      Except.ok row) :
    ∃ vt pv w,
      resolveType (discardNone p.value_type_args) (initial_param_value p) =
        Except.ok (vt, pv) ∧
      dispatchWidget p vt pv = Except.ok w ∧
      row = assembleRow p w := by
  simp only [build_parameter_widget] at hbuild
  split at hbuild
  · cases hbuild
  · next vt pv heq =>
      split at hbuild
      · cases hbuild
      · next w heq2 =>
          exact ⟨vt, pv, w, heq, heq2, (Except.ok.inj hbuild).symm⟩

/-- C9: for every parameter row returned by build_parameter_widget, the
value control is disabled exactly when the enable checkbox is unchecked:
the invariant holds after construction because the enable handler is run
once at build time, and it is preserved by every change of the checkbox
value because the handler is registered as an observer of that value. -/
theorem c9_disabled_iff_unchecked (obj : PyObject) (row : ParamRow)
    (hbuild : build_parameter_widget obj = Except.ok row) :
    row.w_param.disabled = !row.w_check.value ∧
    ∀ (r : ParamRow) (b : Bool),
      (setCheckboxValue r b).w_param.disabled =
        !(setCheckboxValue r b).w_check.value := by
  constructor
  · cases obj with
    | notCycling s =>
        simp only [build_parameter_widget] at hbuild
        cases hbuild
    | cyclingParameter p =>
        obtain ⟨vt, pv, w, _, _, hrow⟩ := build_ok_elim hbuild
        subst hrow
        rfl
  · intro r b
    rfl

/-- C6: every generated row's enable checkbox is initially checked iff the
parameter is required or already has a non-None value, is disabled exactly
when the parameter is required, and a required parameter's checkbox value
cannot be changed by a user toggle. -/
theorem c6_enable_checkbox (p : CyclingParameter) (row : ParamRow)
    (hbuild : build_parameter_widget (PyObject.cyclingParameter p) =
      Except.ok row) :
    row.w_check.value = (p.required || !(p.value == PyValue.none)) ∧
    row.w_check.disabled = p.required ∧
    (p.required = true →
      ∀ b, (userToggleCheckbox row b).w_check.value = row.w_check.value) := by
  obtain ⟨vt, pv, w, _, _, hrow⟩ := build_ok_elim hbuild
  subst hrow
  refine ⟨rfl, rfl, ?_⟩
  intro hreq b
  have hd : (assembleRow p w).w_check.disabled = true := by
    simp [assembleRow, enable_w_param, buildCheckbox, hreq]
  simp [userToggleCheckbox, hd]

lemma resolveType_single (t : PyType) (pv : PyValue) :
    resolveType [t] pv = Except.ok (t, pv) := rfl

lemma resolveType_nil (pv : PyValue) :
    resolveType [] pv = Except.error PyError.indexError := rfl

lemma resolveType_multi {types : List PyType} (pv : PyValue)
    (h : 1 < types.length) :
    resolveType types pv =
      if types.contains PyType.str then
        Except.ok (PyType.str, PyValue.str (pyStr pv))
      else
        Except.error PyError.notImplementedError := by
  unfold resolveType
  rw [if_pos h]

lemma dispatch_ok_fields {p : CyclingParameter} {vt : PyType} {pv : PyValue}
    {w : ValueWidget} (h : dispatchWidget p vt pv = Except.ok w) :
    w.description = p.label ∧ w.value = pv := by
  cases vt <;>
    simp only [dispatch_literal, dispatch_bool, dispatch_float,
      dispatch_nnFloat, dispatch_int, dispatch_nnInt, dispatch_str,
      dispatch_noneType, dispatch_otherClass] at h <;>
    cases h <;>
    exact ⟨rfl, rfl⟩

/-- C1: for every CyclingParameter accepted by build_parameter_widget, the
value control is chosen by the declared type annotation of the value field
after discarding NoneType: a Literal type yields a Dropdown whose options
are exactly the Literal arguments, bool yields a Dropdown with exactly the
two options (False, false) and (True, true), a float type yields a
BoundedFloatText, an int type yields a BoundedIntText, and str yields a
Text field; in the multi-type-union-containing-str case the effective type
is str and the current value is first converted to its string
representation. -/
theorem c1_type_dispatch (p : CyclingParameter) (vt : PyType) (pv : PyValue)
    (row : ParamRow)
    (hres : resolveType (discardNone p.value_type_args)
      (initial_param_value p) = Except.ok (vt, pv))
    (hbuild : build_parameter_widget (PyObject.cyclingParameter p) =
      Except.ok row) :
    (∀ args, vt = PyType.literal args →
      row.w_param.control =
        WidgetControl.dropdown p.description (args.map DropdownOption.plain)) ∧
    (vt = PyType.bool →
      row.w_param.control =
        WidgetControl.dropdown p.description
          [DropdownOption.labeled "False" (PyValue.bool false),
           DropdownOption.labeled "True" (PyValue.bool true)]) ∧
    ((vt = PyType.float ∨ vt = PyType.nonNegativeFloat) →
      ∃ a b, row.w_param.control = WidgetControl.boundedFloatText a b) ∧
    ((vt = PyType.int ∨ vt = PyType.nonNegativeInt) →
      ∃ a b, row.w_param.control = WidgetControl.boundedIntText a b) ∧
    (vt = PyType.str → row.w_param.control = WidgetControl.text "") ∧
    (1 < (discardNone p.value_type_args).length →
      vt = PyType.str ∧ pv = PyValue.str (pyStr (initial_param_value p))) := by
  obtain ⟨vt2, pv2, w, hres2, hw, hrow⟩ := build_ok_elim hbuild
  rw [hres] at hres2
  injection hres2 with h
  injection h with h1 h2
  subst h1
  subst h2
  subst hrow
  refine ⟨?_, ?_, ?_, ?_, ?_, ?_⟩
  · intro args h
    subst h
    rw [dispatch_literal] at hw
    injection hw with h3
    subst h3
    rfl
  · intro h
    subst h
    rw [dispatch_bool] at hw
    injection hw with h3
    subst h3
    rfl
  · intro h
    rcases h with h | h <;> subst h
    · rw [dispatch_float] at hw
      injection hw with h3
      subst h3
      exact ⟨_, _, rfl⟩
    · rw [dispatch_nnFloat] at hw
      injection hw with h3
      subst h3
      exact ⟨_, _, rfl⟩
  · intro h
    rcases h with h | h <;> subst h
    · rw [dispatch_int] at hw
      injection hw with h3
      subst h3
      exact ⟨_, _, rfl⟩
    · rw [dispatch_nnInt] at hw
      injection hw with h3
      subst h3
      exact ⟨_, _, rfl⟩
  · intro h
    subst h
    rw [dispatch_str] at hw
    injection hw with h3
    subst h3
    rfl
  · intro hlen
    rw [resolveType_multi _ hlen] at hres
    by_cases hc : (discardNone p.value_type_args).contains PyType.str = true
    · rw [if_pos hc] at hres
      injection hres with h
      injection h with h1 h2
      exact ⟨h1.symm, h2.symm⟩
    · rw [if_neg hc] at hres
      cases hres

/-- C3: every numeric value widget is bounded: NonNegativeFloat gets
min 0.0 and max 1e99, any other float gets min -1e99 and max 1e99,
NonNegativeInt gets min 0 and max 1e99, and any other int gets min -1e99
and max 1e99. -/
theorem c3_numeric_bounds (p : CyclingParameter) (vt : PyType) (pv : PyValue)
    (row : ParamRow)
    (hres : resolveType (discardNone p.value_type_args)
      (initial_param_value p) = Except.ok (vt, pv))
    (hbuild : build_parameter_widget (PyObject.cyclingParameter p) =
      Except.ok row) :
    (vt = PyType.nonNegativeFloat →
      row.w_param.control =
        WidgetControl.boundedFloatText (PyValue.float 0) (PyValue.float e99)) ∧
    (vt = PyType.float →
      row.w_param.control =
        WidgetControl.boundedFloatText (PyValue.float (-e99))
          (PyValue.float e99)) ∧
    (vt = PyType.nonNegativeInt →
      row.w_param.control =
        WidgetControl.boundedIntText (PyValue.int 0) (PyValue.float e99)) ∧
    (vt = PyType.int →
      row.w_param.control =
        WidgetControl.boundedIntText (PyValue.float (-e99))
          (PyValue.float e99)) := by
  obtain ⟨vt2, pv2, w, hres2, hw, hrow⟩ := build_ok_elim hbuild
  rw [hres] at hres2
  injection hres2 with h
  injection h with h1 h2
  subst h1
  subst h2
  subst hrow
  refine ⟨?_, ?_, ?_, ?_⟩
  · intro h
    subst h
    rw [dispatch_nnFloat] at hw
    injection hw with h3
    subst h3
    rfl
  · intro h
    subst h
    rw [dispatch_float] at hw
    injection hw with h3
    subst h3
    rfl
  · intro h
    subst h
    rw [dispatch_nnInt] at hw
    injection hw with h3
    subst h3
    rfl
  · intro h
    subst h
    rw [dispatch_int] at hw
    injection hw with h3
    subst h3
    rfl

/-- C4 counterexample: the claim that the value control's initial value
equals param_obj.value when that is not None fails on a parameter whose
annotation is a multi-type union containing str: exUnionParam has the
non-None value int 5, yet the built Text widget holds the string "5". -/
theorem c4_counterexample :
    build_parameter_widget (PyObject.cyclingParameter exUnionParam) =
      Except.ok exUnionRow ∧
    exUnionParam.value ≠ PyValue.none ∧
    exUnionRow.w_param.value ≠
      (if !(exUnionParam.value == PyValue.none) then exUnionParam.value
       else exUnionParam.default_value) := by
  refine ⟨rfl, ?_, ?_⟩ <;> decide

/-- C4 amended: the returned row's value control is bound to the single
parameter: its description equals the parameter's label, and its initial
value equals param_obj.value when that is not None and
param_obj.default_value otherwise, except when the declared annotation
(after discarding NoneType) is a multi-type union containing str, in which
case it is the string representation of that value. -/
theorem c4_value_binding (p : CyclingParameter) (vt : PyType) (pv : PyValue)
    (row : ParamRow)
    (hres : resolveType (discardNone p.value_type_args)
      (initial_param_value p) = Except.ok (vt, pv))
    (hbuild : build_parameter_widget (PyObject.cyclingParameter p) =
      Except.ok row) :
    row.w_param.value = pv ∧
    row.w_param.description = p.label ∧
    ((discardNone p.value_type_args).length ≤ 1 →
      pv = initial_param_value p) ∧
    (1 < (discardNone p.value_type_args).length →
      pv = PyValue.str (pyStr (initial_param_value p))) := by
  obtain ⟨vt2, pv2, w, hres2, hw, hrow⟩ := build_ok_elim hbuild
  rw [hres] at hres2
  injection hres2 with h
  injection h with h1 h2
  subst h1
  subst h2
  subst hrow
  obtain ⟨hdesc, hval⟩ := dispatch_ok_fields hw
  refine ⟨?_, ?_, ?_, ?_⟩
  · rw [assembleRow_w_param_value, hval]
  · rw [assembleRow_w_param_description, hdesc]
  · intro hle
    unfold resolveType at hres
    rw [if_neg (by omega)] at hres
    rcases hts : discardNone p.value_type_args with _ | ⟨t, rest⟩
    · rw [hts] at hres
      cases hres
    · rw [hts] at hres
      injection hres with h
      injection h with h1 h2
      exact h2.symm
  · intro hlen
    rw [resolveType_multi _ hlen] at hres
    by_cases hc : (discardNone p.value_type_args).contains PyType.str = true
    · rw [if_pos hc] at hres
      injection hres with h
      injection h with h1 h2
      exact h2.symm
    · rw [if_neg hc] at hres
      cases hres

lemma build_single {p : CyclingParameter} {t : PyType}
    (hcase : discardNone p.value_type_args = [t]) :
    build_parameter_widget (PyObject.cyclingParameter p) =
      match dispatchWidget p t (initial_param_value p) with
      | Except.error e => Except.error e
      | Except.ok w => Except.ok (assembleRow p w) := by
  simp only [build_parameter_widget, hcase, resolveType_single]

lemma build_single_ok {p : CyclingParameter} {t : PyType} {w : ValueWidget}
    (hcase : discardNone p.value_type_args = [t])
    (hw : dispatchWidget p t (initial_param_value p) = Except.ok w) :
    build_parameter_widget (PyObject.cyclingParameter p) =
      Except.ok (assembleRow p w) := by
  rw [build_single hcase, hw]

lemma build_single_err {p : CyclingParameter} {t : PyType} {e : PyError}
    (hcase : discardNone p.value_type_args = [t])
    (hw : dispatchWidget p t (initial_param_value p) = Except.error e) :
    build_parameter_widget (PyObject.cyclingParameter p) = Except.error e := by
  rw [build_single hcase, hw]

lemma build_multi_str {p : CyclingParameter}
    (hlen : 1 < (discardNone p.value_type_args).length)
    (hc : (discardNone p.value_type_args).contains PyType.str = true) :
    build_parameter_widget (PyObject.cyclingParameter p) =
      Except.ok (assembleRow p
        { control := WidgetControl.text ""
          description := p.label
          value := PyValue.str (pyStr (initial_param_value p))
          disabled := false }) := by
  simp only [build_parameter_widget, resolveType_multi _ hlen, if_pos hc,
    dispatch_str]

lemma build_multi_nostr {p : CyclingParameter}
    (hlen : 1 < (discardNone p.value_type_args).length)
    (hc : ¬((discardNone p.value_type_args).contains PyType.str = true)) :
    build_parameter_widget (PyObject.cyclingParameter p) =
      Except.error PyError.notImplementedError := by
  simp only [build_parameter_widget, resolveType_multi _ hlen, if_neg hc]

lemma dispatch_total (p : CyclingParameter) (t : PyType) (pv : PyValue) :
    (supportedSingle t = true ∧ ∃ w, dispatchWidget p t pv = Except.ok w) ∨
    (supportedSingle t = false ∧
      dispatchWidget p t pv = Except.error PyError.notImplementedError) := by
  cases t with
  | literal args => exact Or.inl ⟨rfl, _, dispatch_literal p args pv⟩
  | bool => exact Or.inl ⟨rfl, _, dispatch_bool p pv⟩
  | float => exact Or.inl ⟨rfl, _, dispatch_float p pv⟩
  | nonNegativeFloat => exact Or.inl ⟨rfl, _, dispatch_nnFloat p pv⟩
  | int => exact Or.inl ⟨rfl, _, dispatch_int p pv⟩
  | nonNegativeInt => exact Or.inl ⟨rfl, _, dispatch_nnInt p pv⟩
  | str => exact Or.inl ⟨rfl, _, dispatch_str p pv⟩
  | noneType => exact Or.inr ⟨rfl, dispatch_noneType p pv⟩
  | otherClass s => exact Or.inr ⟨rfl, dispatch_otherClass p s pv⟩

lemma unsupportedAnn_single (t : PyType) :
    unsupportedAnn [t] = !(supportedSingle t) := rfl

lemma c7_conj_of_ok {p : CyclingParameter} {row : ParamRow}
    (hb : build_parameter_widget (PyObject.cyclingParameter p) =
      Except.ok row)
    (hun : unsupportedAnn (discardNone p.value_type_args) = false) :
    ((∃ msg, build_parameter_widget (PyObject.cyclingParameter p) =
        Except.error (PyError.typeError msg)) ↔
      ∀ p2, PyObject.cyclingParameter p ≠ PyObject.cyclingParameter p2) ∧
    ((build_parameter_widget (PyObject.cyclingParameter p) =
        Except.error PyError.notImplementedError) ↔
      ∃ p2, PyObject.cyclingParameter p = PyObject.cyclingParameter p2 ∧
        unsupportedAnn (discardNone p2.value_type_args) = true) ∧
    (∀ p2, PyObject.cyclingParameter p = PyObject.cyclingParameter p2 →
      unsupportedAnn (discardNone p2.value_type_args) = false →
      ∃ row2, build_parameter_widget (PyObject.cyclingParameter p) =
        Except.ok row2) := by
  refine ⟨⟨?_, ?_⟩, ⟨?_, ?_⟩, ?_⟩
  · rintro ⟨msg, hmsg⟩
    rw [hb] at hmsg
    cases hmsg
  · intro hall
    exact absurd rfl (hall p)
  · intro hmsg
    rw [hb] at hmsg
    cases hmsg
  · rintro ⟨p2, hp2, hY⟩
    injection hp2 with hp2
    subst hp2
    rw [hun] at hY
    cases hY
  · intro p2 _ _
    exact ⟨row, hb⟩

lemma c7_conj_of_nie {p : CyclingParameter}
    (hb : build_parameter_widget (PyObject.cyclingParameter p) =
      Except.error PyError.notImplementedError)
    (hun : unsupportedAnn (discardNone p.value_type_args) = true) :
    ((∃ msg, build_parameter_widget (PyObject.cyclingParameter p) =
        Except.error (PyError.typeError msg)) ↔
      ∀ p2, PyObject.cyclingParameter p ≠ PyObject.cyclingParameter p2) ∧
    ((build_parameter_widget (PyObject.cyclingParameter p) =
        Except.error PyError.notImplementedError) ↔
      ∃ p2, PyObject.cyclingParameter p = PyObject.cyclingParameter p2 ∧
        unsupportedAnn (discardNone p2.value_type_args) = true) ∧
    (∀ p2, PyObject.cyclingParameter p = PyObject.cyclingParameter p2 →
      unsupportedAnn (discardNone p2.value_type_args) = false →
      ∃ row2, build_parameter_widget (PyObject.cyclingParameter p) =
        Except.ok row2) := by
  refine ⟨⟨?_, ?_⟩, ⟨?_, ?_⟩, ?_⟩
  · rintro ⟨msg, hmsg⟩
    rw [hb] at hmsg
    injection hmsg with h
    cases h
  · intro hall
    exact absurd rfl (hall p)
  · intro _
    exact ⟨p, rfl, hun⟩
  · intro _
    exact hb
  · intro p2 hp2 hfalse
    injection hp2 with hp2
    subst hp2
    rw [hun] at hfalse
    cases hfalse

/-- C7: build_parameter_widget raises TypeError iff its argument is not a
CyclingParameter instance, raises NotImplementedError iff the declared
value type after discarding NoneType is a multi-type union without str or
a single type that is none of Literal, bool, float, int, str, and in every
other case returns an HBox row without raising.  The hypothesis hwf
records that the value field of a CyclingParameter is declared
Optional over at least one actual type, so discarding NoneType leaves a
nonempty tuple. -/
theorem c7_error_behaviour (obj : PyObject)
    (hwf : ∀ p, obj = PyObject.cyclingParameter p →
      discardNone p.value_type_args ≠ []) :
    ((∃ msg, build_parameter_widget obj =
        Except.error (PyError.typeError msg)) ↔
      ∀ p, obj ≠ PyObject.cyclingParameter p) ∧
    ((build_parameter_widget obj = Except.error PyError.notImplementedError) ↔
      ∃ p, obj = PyObject.cyclingParameter p ∧
        unsupportedAnn (discardNone p.value_type_args) = true) ∧
    (∀ p, obj = PyObject.cyclingParameter p →
      unsupportedAnn (discardNone p.value_type_args) = false →
      ∃ row, build_parameter_widget obj = Except.ok row) := by
  cases obj with
  | notCycling s =>
      refine ⟨⟨?_, ?_⟩, ⟨?_, ?_⟩, ?_⟩
      · intro _ p2 h
        cases h
      · intro _
        exact ⟨_, rfl⟩
      · intro hmsg
        simp only [build_parameter_widget] at hmsg
        injection hmsg with h
        cases h
      · rintro ⟨p2, hp2, _⟩
        cases hp2
      · intro p2 hp2
        cases hp2
  | cyclingParameter p =>
      have hts := hwf p rfl
      rcases hcase : discardNone p.value_type_args with _ | ⟨t, rest⟩
      · exact absurd hcase hts
      · rcases rest with _ | ⟨t2, rest2⟩
        · rcases dispatch_total p t (initial_param_value p) with
            ⟨hsup, w, hw⟩ | ⟨hsup, hw⟩
          · refine c7_conj_of_ok (build_single_ok hcase hw) ?_
            rw [hcase, unsupportedAnn_single, hsup]
            rfl
          · refine c7_conj_of_nie (build_single_err hcase hw) ?_
            rw [hcase, unsupportedAnn_single, hsup]
            rfl
        · have hlen : 1 < (discardNone p.value_type_args).length := by
            rw [hcase]
            simp only [List.length_cons]
            omega
          cases hc : (discardNone p.value_type_args).contains PyType.str with
          | true =>
              refine c7_conj_of_ok (build_multi_str hlen hc) ?_
              rw [hcase] at hc ⊢
              show ((decide (1 < (t :: t2 :: rest2).length) &&
                  !((t :: t2 :: rest2).contains PyType.str)) || false) = false
              rw [hc]
              simp
          | false =>
              refine c7_conj_of_nie
                (build_multi_nostr hlen (by rw [hc]; simp)) ?_
              rw [hcase] at hc ⊢
              show ((decide (1 < (t :: t2 :: rest2).length) &&
                  !((t :: t2 :: rest2).contains PyType.str)) || false) = true
              rw [hc]
              simp only [Bool.not_false, Bool.and_true, Bool.or_false,
                decide_eq_true_eq, List.length_cons]
              omega

lemma resolveType_error {types : List PyType} {pv : PyValue} {e : PyError}
    (h : resolveType types pv = Except.error e) :
    e = PyError.notImplementedError ∨ e = PyError.indexError := by
  unfold resolveType at h
  split at h
  · split at h
    · cases h
    · injection h with h2
      exact Or.inl h2.symm
  · split at h
    · injection h with h2
      exact Or.inr h2.symm
    · cases h

lemma dispatchWidget_error {p : CyclingParameter} {vt : PyType}
    {pv : PyValue} {e : PyError}
    (h : dispatchWidget p vt pv = Except.error e) :
    e = PyError.notImplementedError := by
  rcases dispatch_total p vt pv with ⟨_, w, hw⟩ | ⟨_, hw⟩
  · rw [hw] at h
    cases h
  · rw [hw] at h
    injection h with h2
    exact h2.symm

lemma build_ne_valueError (obj : PyObject) (msg : String) :
    build_parameter_widget obj ≠ Except.error (PyError.valueError msg) := by
  intro h
  cases obj with
  | notCycling s =>
      simp only [build_parameter_widget] at h
      injection h with h2
      cases h2
  | cyclingParameter p =>
      simp only [build_parameter_widget] at h
      split at h
      · next e heq =>
          injection h with h2
          subst h2
          rcases resolveType_error heq with h3 | h3 <;> cases h3
      · split at h
        · next e heq =>
            injection h with h2
            subst h2
            cases dispatchWidget_error heq
        · cases h

lemma buildParameterRows_ne_valueError (params : List (String × PyObject))
    (msg : String) :
    buildParameterRows params ≠ Except.error (PyError.valueError msg) := by
  induction params with
  | nil =>
      intro h
      cases h
  | cons hd tl ih =>
      intro h
      obtain ⟨n, pobj⟩ := hd
      simp only [buildParameterRows] at h
      split at h
      · next e heq =>
          injection h with h2
          subst h2
          exact build_ne_valueError pobj msg heq
      · split at h
        · next e heq =>
            injection h with h2
            subst h2
            exact ih heq
        · cases h

/-- C8: TechniqueParametersWidget construction raises ValueError iff the
given technique is not an instance of one of the ElectroChemPayloads
classes; in the embedding an error result carries no widget state, so no
state is constructed on that error. -/
theorem c8_invalid_technique (tech : TechniqueObject) :
    (∃ msg, TechniqueParametersWidget.init tech =
      Except.error (PyError.valueError msg)) ↔
    ∀ t, tech ≠ TechniqueObject.valid t := by
  constructor
  · rintro ⟨msg, h⟩ t2 ht2
    subst ht2
    simp only [TechniqueParametersWidget.init] at h
    split at h
    · injection h with h2
      cases h2
    · split at h
      · next e heq =>
          injection h with h2
          subst h2
          exact buildParameterRows_ne_valueError t2.parameters msg heq
      · cases h
  · intro h
    cases tech with
    | valid t => exact absurd rfl (h t)
    | invalid s => exact ⟨"Invalid technique", rfl⟩

lemma buildParameterRows_ok {params : List (String × PyObject)}
    {rows : List ParamRow}
    (h : buildParameterRows params = Except.ok rows) :
    List.Forall₂ (fun q row => build_parameter_widget q.2 = Except.ok row)
      params rows := by
  induction params generalizing rows with
  | nil =>
      injection h with h2
      subst h2
      exact List.Forall₂.nil
  | cons hd tl ih =>
      obtain ⟨n, pobj⟩ := hd
      simp only [buildParameterRows] at h
      split at h
      · cases h
      · next row heq =>
          split at h
          · cases h
          · next rest heq2 =>
              injection h with h2
              subst h2
              exact List.Forall₂.cons heq (ih heq2)

/-- C5: for every valid technique accepted by the constructor, exactly one
parameter row is built per entry of the parameter schema, in the schema
iteration order, tech_parameters_names lists the parameter names in that
same order, and the read-back value list has one entry per row, so the
positions of names, rows and read-back values correspond. -/
theorem c5_row_per_schema_entry (t : Technique) (w : TechniqueParametersWidget)
    (hinit : TechniqueParametersWidget.init (TechniqueObject.valid t) =
      Except.ok w) :
    w.tech_parameters_names = t.parameters.map Prod.fst ∧
    List.Forall₂ (fun q row => build_parameter_widget q.2 = Except.ok row)
      t.parameters w.w_tech_parameters ∧
    w.tech_parameters_values =
      w.w_tech_parameters.map
        (fun r => if r.w_check.value then r.w_param.value else PyValue.none) ∧
    w.tech_parameters_values.length = t.parameters.length := by
  simp only [TechniqueParametersWidget.init] at hinit
  split at hinit
  · cases hinit
  · split at hinit
    · cases hinit
    · next rows heq =>
        injection hinit with h2
        subst h2
        have hf := buildParameterRows_ok heq
        refine ⟨rfl, hf, rfl, ?_⟩
        simp only [TechniqueParametersWidget.tech_parameters_values,
          List.length_map]
        exact hf.length_eq.symm

lemma dictSetItem_of_not_mem {d : List (String × PyValue)} {k : String}
    {v : PyValue} (h : k ∉ d.map Prod.fst) :
    dictSetItem d k v = d ++ [(k, v)] := by
  unfold dictSetItem
  rw [if_neg]
  intro hc
  rcases List.any_eq_true.mp hc with ⟨q, hq, hqk⟩
  exact h (List.mem_map.mpr ⟨q, hq, by simpa using hqk⟩)

lemma foldl_dictSetItem (l acc : List (String × PyValue))
    (h : ((acc ++ l).map Prod.fst).Nodup) :
    l.foldl (fun d q => dictSetItem d q.1 q.2) acc = acc ++ l := by
  induction l generalizing acc with
  | nil => simp
  | cons hd tl ih =>
      obtain ⟨k, v⟩ := hd
      rw [List.map_append] at h
      rcases List.nodup_append.mp h with ⟨h1, h2, hdisj⟩
      have hk : k ∉ acc.map Prod.fst := fun hm => hdisj hm (by simp)
      rw [List.foldl_cons, dictSetItem_of_not_mem hk]
      rw [ih (acc ++ [(k, v)]) (by simpa [List.append_assoc] using h)]
      simp

lemma pyDictOfPairs_of_nodup {l : List (String × PyValue)}
    (h : (l.map Prod.fst).Nodup) : pyDictOfPairs l = l := by
  have := foldl_dictSetItem l [] (by simpa using h)
  simpa [pyDictOfPairs] using this

/-- C2: reading selected_tech_parameters yields the dictionary that maps
each parameter name to the value of its row exactly for those rows whose
enable checkbox is checked and whose value widget holds a non-None value;
rows whose checkbox is unchecked are reported as None by
tech_parameters_values and are omitted.  The hypotheses record that the
names come from the keys of the parameters dict (hence distinct) and that
one row exists per name. -/
theorem c2_selected_parameters (w : TechniqueParametersWidget)
    (hnodup : w.tech_parameters_names.Nodup)
    (hlen : w.tech_parameters_names.length = w.w_tech_parameters.length) :
    w.selected_tech_parameters =
      ((w.tech_parameters_names.zip w.w_tech_parameters).filter
        (fun q => q.2.w_check.value && !(q.2.w_param.value == PyValue.none))).map
        (fun q => (q.1, q.2.w_param.value)) := by
  unfold TechniqueParametersWidget.selected_tech_parameters
  have hv : w.tech_parameters_values =
      w.w_tech_parameters.map
        (fun r => if r.w_check.value then r.w_param.value else PyValue.none) :=
    rfl
  rw [hv, List.zip_map_right, List.filter_map]
  have hcongr : (w.tech_parameters_names.zip w.w_tech_parameters).filter
        ((fun (q : String × PyValue) => !(q.2 == PyValue.none)) ∘
          Prod.map id (fun r =>
            if r.w_check.value then r.w_param.value else PyValue.none)) =
      (w.tech_parameters_names.zip w.w_tech_parameters).filter
        (fun q => q.2.w_check.value && !(q.2.w_param.value == PyValue.none)) := by
    apply List.filter_congr
    intro q _
    rcases q with ⟨n, r⟩
    by_cases hc : r.w_check.value <;> simp [hc, Function.comp]
  rw [hcongr]
  have hmap : ((w.tech_parameters_names.zip w.w_tech_parameters).filter
        (fun q => q.2.w_check.value && !(q.2.w_param.value == PyValue.none))).map
        (Prod.map id (fun r =>
          if r.w_check.value then r.w_param.value else PyValue.none)) =
      ((w.tech_parameters_names.zip w.w_tech_parameters).filter
        (fun q => q.2.w_check.value && !(q.2.w_param.value == PyValue.none))).map
        (fun q => (q.1, q.2.w_param.value)) := by
    apply List.map_congr_left
    intro q hq
    have hmem := List.of_mem_filter hq
    rcases q with ⟨n, r⟩
    have hcheck : r.w_check.value = true :=
      (Bool.and_eq_true .. |>.mp hmem).1
    show (id n, if r.w_check.value then r.w_param.value else PyValue.none) =
      (n, r.w_param.value)
    rw [hcheck]
    simp
  rw [hmap]
  apply pyDictOfPairs_of_nodup
  have h1 : (((w.tech_parameters_names.zip w.w_tech_parameters).filter
        (fun q => q.2.w_check.value && !(q.2.w_param.value == PyValue.none))).map
        (fun q => (q.1, q.2.w_param.value))).map Prod.fst =
      ((w.tech_parameters_names.zip w.w_tech_parameters).filter
        (fun q => q.2.w_check.value && !(q.2.w_param.value == PyValue.none))).map
        Prod.fst := by
    rw [List.map_map]
    rfl
  rw [h1]
  have hsub : List.Sublist
      (((w.tech_parameters_names.zip w.w_tech_parameters).filter
        (fun q => q.2.w_check.value && !(q.2.w_param.value == PyValue.none))).map
        Prod.fst)
      (((w.tech_parameters_names.zip w.w_tech_parameters)).map Prod.fst) :=
    (List.filter_sublist _).map Prod.fst
  rw [List.map_fst_zip _ _ (le_of_eq hlen)] at hsub
  exact hnodup.sublist hsub

/-- Witness for C1 at the concrete bool parameter exBoolParam. -/
theorem c1_witness :
    (resolveType (discardNone exBoolParam.value_type_args)
      (initial_param_value exBoolParam) =
        Except.ok (PyType.bool, PyValue.bool false)) ∧
    (build_parameter_widget (PyObject.cyclingParameter exBoolParam) =
      Except.ok exBoolRow) ∧
    ((∀ args, PyType.bool = PyType.literal args →
      exBoolRow.w_param.control =
        WidgetControl.dropdown exBoolParam.description
          (args.map DropdownOption.plain)) ∧
    (PyType.bool = PyType.bool →
      exBoolRow.w_param.control =
        WidgetControl.dropdown exBoolParam.description
          [DropdownOption.labeled "False" (PyValue.bool false),
           DropdownOption.labeled "True" (PyValue.bool true)]) ∧
    ((PyType.bool = PyType.float ∨ PyType.bool = PyType.nonNegativeFloat) →
      ∃ a b, exBoolRow.w_param.control = WidgetControl.boundedFloatText a b) ∧
    ((PyType.bool = PyType.int ∨ PyType.bool = PyType.nonNegativeInt) →
      ∃ a b, exBoolRow.w_param.control = WidgetControl.boundedIntText a b) ∧
    (PyType.bool = PyType.str →
      exBoolRow.w_param.control = WidgetControl.text "") ∧
    (1 < (discardNone exBoolParam.value_type_args).length →
      PyType.bool = PyType.str ∧
      PyValue.bool false =
        PyValue.str (pyStr (initial_param_value exBoolParam)))) :=
  ⟨rfl, rfl, c1_type_dispatch exBoolParam PyType.bool (PyValue.bool false)
    exBoolRow rfl rfl⟩

/-- Witness for C3 at the concrete NonNegativeFloat parameter
exFloatParam. -/
theorem c3_witness :
    (resolveType (discardNone exFloatParam.value_type_args)
      (initial_param_value exFloatParam) =
        Except.ok (PyType.nonNegativeFloat, PyValue.float 2)) ∧
    (build_parameter_widget (PyObject.cyclingParameter exFloatParam) =
      Except.ok exFloatRow) ∧
    ((PyType.nonNegativeFloat = PyType.nonNegativeFloat →
      exFloatRow.w_param.control =
        WidgetControl.boundedFloatText (PyValue.float 0) (PyValue.float e99)) ∧
    (PyType.nonNegativeFloat = PyType.float →
      exFloatRow.w_param.control =
        WidgetControl.boundedFloatText (PyValue.float (-e99))
          (PyValue.float e99)) ∧
    (PyType.nonNegativeFloat = PyType.nonNegativeInt →
      exFloatRow.w_param.control =
        WidgetControl.boundedIntText (PyValue.int 0) (PyValue.float e99)) ∧
    (PyType.nonNegativeFloat = PyType.int →
      exFloatRow.w_param.control =
        WidgetControl.boundedIntText (PyValue.float (-e99))
          (PyValue.float e99))) :=
  ⟨rfl, rfl, c3_numeric_bounds exFloatParam PyType.nonNegativeFloat
    (PyValue.float 2) exFloatRow rfl rfl⟩

/-- Witness for the amended C4 at the concrete union parameter
exUnionParam. -/
theorem c4_witness :
    (resolveType (discardNone exUnionParam.value_type_args)
      (initial_param_value exUnionParam) =
        Except.ok (PyType.str, PyValue.str "5")) ∧
    (build_parameter_widget (PyObject.cyclingParameter exUnionParam) =
      Except.ok exUnionRow) ∧
    (exUnionRow.w_param.value = PyValue.str "5" ∧
    exUnionRow.w_param.description = exUnionParam.label ∧
    ((discardNone exUnionParam.value_type_args).length ≤ 1 →
      PyValue.str "5" = initial_param_value exUnionParam) ∧
    (1 < (discardNone exUnionParam.value_type_args).length →
      PyValue.str "5" =
        PyValue.str (pyStr (initial_param_value exUnionParam)))) :=
  ⟨rfl, rfl, c4_value_binding exUnionParam PyType.str (PyValue.str "5")
    exUnionRow rfl rfl⟩

/-- Witness for C5 at the concrete technique exTechnique. -/
theorem c5_witness :
    (TechniqueParametersWidget.init (TechniqueObject.valid exTechnique) =
      Except.ok exTPW) ∧
    (exTPW.tech_parameters_names = exTechnique.parameters.map Prod.fst ∧
    List.Forall₂ (fun q row => build_parameter_widget q.2 = Except.ok row)
      exTechnique.parameters exTPW.w_tech_parameters ∧
    exTPW.tech_parameters_values =
      exTPW.w_tech_parameters.map
        (fun r => if r.w_check.value then r.w_param.value else PyValue.none) ∧
    exTPW.tech_parameters_values.length = exTechnique.parameters.length) :=
  ⟨rfl, c5_row_per_schema_entry exTechnique exTPW rfl⟩

/-- Witness for C6 at the concrete required parameter exBoolParam. -/
theorem c6_witness :
    (build_parameter_widget (PyObject.cyclingParameter exBoolParam) =
      Except.ok exBoolRow) ∧
    (exBoolRow.w_check.value =
      (exBoolParam.required || !(exBoolParam.value == PyValue.none)) ∧
    exBoolRow.w_check.disabled = exBoolParam.required ∧
    (exBoolParam.required = true →
      ∀ b, (userToggleCheckbox exBoolRow b).w_check.value =
        exBoolRow.w_check.value)) :=
  ⟨rfl, c6_enable_checkbox exBoolParam exBoolRow rfl⟩

/-- Witness for C7 at the concrete object wrapping exBoolParam. -/
theorem c7_witness :
    (∀ p, PyObject.cyclingParameter exBoolParam =
        PyObject.cyclingParameter p →
      discardNone p.value_type_args ≠ []) ∧
    (((∃ msg, build_parameter_widget (PyObject.cyclingParameter exBoolParam) =
        Except.error (PyError.typeError msg)) ↔
      ∀ p, PyObject.cyclingParameter exBoolParam ≠
        PyObject.cyclingParameter p) ∧
    ((build_parameter_widget (PyObject.cyclingParameter exBoolParam) =
        Except.error PyError.notImplementedError) ↔
      ∃ p, PyObject.cyclingParameter exBoolParam =
        PyObject.cyclingParameter p ∧
        unsupportedAnn (discardNone p.value_type_args) = true) ∧
    (∀ p, PyObject.cyclingParameter exBoolParam =
        PyObject.cyclingParameter p →
      unsupportedAnn (discardNone p.value_type_args) = false →
      ∃ row, build_parameter_widget (PyObject.cyclingParameter exBoolParam) =
        Except.ok row)) :=
  ⟨fun p h => by cases h; decide,
   c7_error_behaviour (PyObject.cyclingParameter exBoolParam)
     (fun p h => by cases h; decide)⟩

/-- Witness for C9 at the concrete parameter exBoolParam. -/
theorem c9_witness :
    (build_parameter_widget (PyObject.cyclingParameter exBoolParam) =
      Except.ok exBoolRow) ∧
    (exBoolRow.w_param.disabled = !exBoolRow.w_check.value ∧
    ∀ (r : ParamRow) (b : Bool),
      (setCheckboxValue r b).w_param.disabled =
        !(setCheckboxValue r b).w_check.value) :=
  ⟨rfl, c9_disabled_iff_unchecked (PyObject.cyclingParameter exBoolParam)
    exBoolRow rfl⟩

/-- Witness for C2 at the concrete widget state exTPW. -/
theorem c2_witness :
    exTPW.tech_parameters_names.Nodup ∧
    exTPW.tech_parameters_names.length = exTPW.w_tech_parameters.length ∧
    exTPW.selected_tech_parameters =
      ((exTPW.tech_parameters_names.zip exTPW.w_tech_parameters).filter
        (fun q => q.2.w_check.value &&
          !(q.2.w_param.value == PyValue.none))).map
        (fun q => (q.1, q.2.w_param.value)) :=
  ⟨by decide, rfl,
   c2_selected_parameters exTPW (by decide) rfl⟩
